import Mathlib

/-!
Verification of the ImpactGuard AI analytical core and its Streamlit
presentation layer (`src/ImpactGuard_AI/streamlit/app.py`).

The repository ships only the Streamlit caller; the analytical core
(the stored procedures `app_schema.check_data_quality` and
`app_schema.generate_forecast`) is not part of the source tree, so the
core is modelled from the specification (spec.md §3-§4), while the
presentation and handler logic is embedded from `app.py`.

Numbers are modelled as rationals (`ℚ`), dates as integer day numbers
(`ℤ`), and fallible Python code as `Except String`.
-/

/-- Cell values of a dataset, the tagged union of spec §9:
string, number, timestamp (as an absolute day number) or null. -/
inductive Cell where
  | str (s : String)
  | num (q : ℚ)
  | ts (day : ℤ)
  | null
deriving DecidableEq, Repr

/-- A dataset row projected to the three mapped columns
(value, date, optional category). -/
structure Row where
  value : Cell
  date : Cell
  category : Cell
deriving DecidableEq, Repr

/-- Modelled from the spec (§4.1 step 2): a cell is counted as null for
the date/category columns when it is null or an empty string. -/
def isNullCell : Cell → Bool
  | Cell.null => true
  | Cell.str s => s = ""
  | _ => false

/-- Modelled from the spec (§4.1): numeric reading of a value cell;
non-numeric cells yield `none` and are treated as null for null-counting
and excluded from outlier/statistics computation. -/
def numCell : Cell → Option ℚ
  | Cell.num q => some q
  | _ => none

/-- Modelled from the spec (§4.1 step 3): normalization before duplicate
comparison trims strings and preserves case. -/
def normCell : Cell → Cell
  | Cell.str s => Cell.str s.trim
  | c => c

/-- Modelled from the spec (§4.1 step 3): the duplicate key of a row is the
normalized (value, date, category-if-configured) triple. -/
def dupKey (hasCategory : Bool) (r : Row) : Cell × Cell × Option Cell :=
  (normCell r.value, normCell r.date,
    if hasCategory then some (normCell r.category) else none)

/-- Count of elements that already occurred earlier in the list
(each later occurrence counts once). -/
def laterDupCount {α : Type} [DecidableEq α] : List α → List α → ℕ
  | _, [] => 0
  | seen, k :: rest =>
      (if k ∈ seen then 1 else 0) + laterDupCount (k :: seen) rest

/-- Modelled from the spec (§4.1 step 3): `duplicate_count`, the number of
rows whose duplicate key occurred earlier in the input. -/
def dupCount (hasCategory : Bool) (rows : List Row) : ℕ :=
  laterDupCount [] (rows.map (dupKey hasCategory))

/-- Modelled from the spec (§4.1 step 2): value-column null count. -/
def valueNulls (rows : List Row) : ℕ :=
  rows.countP (fun r => (numCell r.value).isNone)

/-- Modelled from the spec (§4.1 step 2): date-column null count. -/
def dateNulls (rows : List Row) : ℕ :=
  rows.countP (fun r => isNullCell r.date)

/-- Modelled from the spec (§4.1 step 2): category-column null count,
0 when no category column is configured. -/
def categoryNulls (hasCategory : Bool) (rows : List Row) : ℕ :=
  if hasCategory then rows.countP (fun r => isNullCell r.category) else 0

/-- Modelled from the spec (§4.1 step 4): the numeric, non-null value cells
of the dataset, in input order. -/
def numericValues (rows : List Row) : List ℚ :=
  rows.filterMap (fun r => numCell r.value)

/-- Arithmetic mean of a list of rationals (0 for the empty list,
since `x / 0 = 0` in `ℚ`). -/
def meanQ (l : List ℚ) : ℚ := l.sum / l.length

/-- Population variance σ² of a list of rationals. The three-sigma test
`|x − μ| > 3σ` is stated equivalently as `(x − μ)² > 9σ²`, which avoids
the irrational square root. -/
def popVar (l : List ℚ) : ℚ :=
  (l.map (fun x => (x - meanQ l) ^ 2)).sum / l.length

/-- Modelled from the spec (§4.1 step 4): whether the row at position `i`
is an outlier: its value is numeric and deviates from the mean of the
numeric values by more than three population standard deviations
(expressed with squares). -/
def isOutlierAt (rows : List Row) (i : ℕ) : Bool :=
  match rows.get? i with
  | some r =>
      match numCell r.value with
      | some v =>
          decide ((v - meanQ (numericValues rows)) ^ 2
                    > 9 * popVar (numericValues rows))
      | none => false
  | none => false

/-- Modelled from the spec (§4.1 step 4): 0-based positions of outlier rows
in input order; empty when σ = 0 or fewer than 2 numeric rows exist. -/
def outlierIndices (rows : List Row) : List ℕ :=
  if (numericValues rows).length < 2 ∨ popVar (numericValues rows) = 0 then []
  else (List.range rows.length).filter (fun i => isOutlierAt rows i)

/-- Modelled from the spec (§4.1 step 4): `outlier_count`. -/
def outlierCount (rows : List Row) : ℕ := (outlierIndices rows).length

/-- Rounding to 2 decimal places over `ℚ`. -/
def round2 (q : ℚ) : ℚ := ((round (q * 100) : ℤ) : ℚ) / 100

/-- Modelled from the spec (§4.1 step 5): quality score, 100 minus the
null/duplicate/outlier penalties with weights 0.4/0.3/0.3, floored at 0 and
rounded to 2 decimals; 0 for an empty dataset (step 1). -/
def qualityScore (hasCategory : Bool) (rows : List Row) : ℚ :=
  if rows.length = 0 then 0
  else
    round2 (max 0 (100
      - ((valueNulls rows + dateNulls rows : ℕ) : ℚ)
          / (rows.length : ℚ) * 100 * (4 / 10)
      - ((dupCount hasCategory rows : ℕ) : ℚ)
          / (rows.length : ℚ) * 100 * (3 / 10)
      - ((outlierCount rows : ℕ) : ℚ)
          / (rows.length : ℚ) * 100 * (3 / 10)))

/-- QualityReport of spec §3, output of the quality analyzer. -/
structure QualityReport where
  total_rows : ℕ
  duplicate_count : ℕ
  value_nulls : ℕ
  date_nulls : ℕ
  category_nulls : ℕ
  outlier_count : ℕ
  outlier_indices : List ℕ
  quality_score : ℚ
deriving DecidableEq, Repr

/-- Modelled from the spec (§4.1): `analyze(dataset, roles)`, the
missing stored procedure `app_schema.check_data_quality`. -/
def analyze (hasCategory : Bool) (rows : List Row) : QualityReport :=
  { total_rows := rows.length
  , duplicate_count := dupCount hasCategory rows
  , value_nulls := valueNulls rows
  , date_nulls := dateNulls rows
  , category_nulls := categoryNulls hasCategory rows
  , outlier_count := outlierCount rows
  , outlier_indices := outlierIndices rows
  , quality_score := qualityScore hasCategory rows }

/-- Modelled from the spec (§4.2 step 1): date reading; a date cell is
usable exactly when it is a timestamp (unparseable cells yield `none`). -/
def parseDateCell : Cell → Option ℤ
  | Cell.ts d => some d
  | _ => none

/-- Modelled from the spec (§4.2 step 1): the usable (day, value) pairs of
the dataset, keeping rows whose date parses and whose value is numeric. -/
def usableRows (rows : List Row) : List (ℤ × ℚ) :=
  rows.filterMap (fun r =>
    match parseDateCell r.date, numCell r.value with
    | some d, some v => some (d, v)
    | _, _ => none)

/-- Modelled from the spec (§4.2 step 2): the calendar week of a day,
anchored at day 0 with floored division (a fixed weekday anchor). -/
def weekOf (d : ℤ) : ℤ := Int.fdiv d 7

/-- Modelled from the spec (§4.2 step 2): the distinct aggregation weeks of
the usable rows, in chronological order; empty weeks are omitted. -/
def weekList (rows : List Row) : List ℤ :=
  List.insertionSort (· ≤ ·)
    (((usableRows rows).map (fun p => weekOf p.1)).dedup)

/-- Modelled from the spec (§4.2 step 2): the mean value of one week's
bucket of usable rows. -/
def weekMean (rows : List Row) (w : ℤ) : ℚ :=
  meanQ (((usableRows rows).filter (fun p => weekOf p.1 = w)).map Prod.snd)

/-- Modelled from the spec (§4.2 step 2): the chronological weekly value
series (one mean per non-empty week). -/
def histValuesOf (rows : List Row) : List ℚ :=
  (weekList rows).map (weekMean rows)

/-- Modelled from the spec (§4.2 step 2): the week-start dates of the
historical series. -/
def histDatesOf (rows : List Row) : List ℤ :=
  (weekList rows).map (fun w => 7 * w)

/-- Value at index `i` of a series (0 beyond the end). -/
def yAt (ys : List ℚ) (i : ℕ) : ℚ := ys.getD i 0

/-- Mean of the regression x-coordinates `0, 1, …, n−1`. -/
def xbar (n : ℕ) : ℚ := ((Finset.range n).sum (fun i => (i : ℚ))) / n

/-- Mean of the series values. -/
def ybar (ys : List ℚ) : ℚ :=
  ((Finset.range ys.length).sum (fun i => yAt ys i)) / ys.length

/-- Centered second moment of the x-coordinates. -/
def sxx (n : ℕ) : ℚ := (Finset.range n).sum (fun i => ((i : ℚ) - xbar n) ^ 2)

/-- Centered cross moment of x-coordinates and values. -/
def sxy (ys : List ℚ) : ℚ :=
  (Finset.range ys.length).sum
    (fun i => ((i : ℚ) - xbar ys.length) * (yAt ys i - ybar ys))

/-- Total sum of squares of the series. -/
def tss (ys : List ℚ) : ℚ :=
  (Finset.range ys.length).sum (fun i => (yAt ys i - ybar ys) ^ 2)

/-- Residual sum of squares of the series against the line
`value = b * x + a`. -/
def rss (ys : List ℚ) (b a : ℚ) : ℚ :=
  (Finset.range ys.length).sum (fun i => (yAt ys i - (b * i + a)) ^ 2)

/-- Modelled from the spec (§4.2 step 3): ordinary least-squares fit with
x = 0 … n−1, returning (r_squared, coefficient, intercept);
`r_squared = 1 − rss/tss`, and a constant series (tss = 0) yields
`r_squared = 0` and `coefficient = 0`. -/
def fitLin (ys : List ℚ) : ℚ × ℚ × ℚ :=
  if tss ys = 0 then (0, 0, ybar ys)
  else
    (1 - rss ys (sxy ys / sxx ys.length)
          (ybar ys - sxy ys / sxx ys.length * xbar ys.length) / tss ys,
      sxy ys / sxx ys.length,
      ybar ys - sxy ys / sxx ys.length * xbar ys.length)

/-- The successful payload of a ForecastResult (spec §3). -/
structure ForecastOk where
  histDates : List ℤ
  histValues : List ℚ
  fcDates : List ℤ
  fcValues : List ℚ
  r_squared : ℚ
  coefficient : ℚ
  intercept : ℚ
deriving DecidableEq, Repr

/-- ForecastResult of spec §3: `status = error` with a message, or
`status = ok` with the forecast payload. -/
inductive ForecastResult where
  | err (message : String)
  | ok (r : ForecastOk)
deriving DecidableEq, Repr

/-- The insufficient-data message of spec §4.2 step 1. -/
def insufficientMsg : String :=
  "Insufficient data for forecasting. Need at least 2 data points."

/-- Modelled from the spec (§4.2 steps 3-5): the successful forecast built
from the weekly series: a linear fit, 4 extrapolated points at
x = n … n+3, and forecast dates at 7-day steps after the last
historical date. -/
def mkForecastOk (rows : List Row) : ForecastOk :=
  { histDates := histDatesOf rows
  , histValues := histValuesOf rows
  , fcDates := (List.range 4).map
      (fun k : ℕ => (histDatesOf rows).getLastD 0 + 7 * ((k : ℤ) + 1))
  , fcValues := (List.range 4).map
      (fun k : ℕ => (fitLin (histValuesOf rows)).2.1
          * (((histValuesOf rows).length : ℚ) + (k : ℚ))
          + (fitLin (histValuesOf rows)).2.2)
  , r_squared := (fitLin (histValuesOf rows)).1
  , coefficient := (fitLin (histValuesOf rows)).2.1
  , intercept := (fitLin (histValuesOf rows)).2.2 }

/-- Modelled from the spec (§4.2): `forecast(dataset, roles)`, the missing
stored procedure `app_schema.generate_forecast`: error when fewer than 2
usable rows or fewer than 2 distinct weeks remain, otherwise the linear
trend forecast. -/
def forecastEngine (rows : List Row) : ForecastResult :=
  if (usableRows rows).length < 2 then ForecastResult.err insufficientMsg
  else if (weekList rows).length < 2 then ForecastResult.err insufficientMsg
  else ForecastResult.ok (mkForecastOk rows)

/-- Python division: raises ZeroDivisionError when the denominator is 0
(embeds the `/` at app.py lines 298, 305, 312, 322). -/
def pydiv (a b : ℚ) : Except String ℚ :=
  if b = 0 then Except.error "division by zero" else Except.ok (a / b)

/-- The data shown by the quality tab after a successful run
(app.py lines 269-340): score, row/duplicate counts and the
null/outlier percentages. -/
structure QualityView where
  score : ℚ
  totalRows : ℕ
  duplicates : ℕ
  valueNullPct : ℚ
  dateNullPct : ℚ
  categoryNullPct : ℚ
  outlierPct : ℚ
deriving DecidableEq, Repr

/-- Embeds the quality-tab rendering (app.py lines 269-340): each
percentage is `count / total_rows * 100`, with Python division
semantics. -/
def renderQuality (rpt : QualityReport) : Except String QualityView := do
  let vp ← pydiv (rpt.value_nulls : ℚ) (rpt.total_rows : ℚ)
  let dp ← pydiv (rpt.date_nulls : ℚ) (rpt.total_rows : ℚ)
  let cp ← pydiv (rpt.category_nulls : ℚ) (rpt.total_rows : ℚ)
  let op ← pydiv (rpt.outlier_count : ℚ) (rpt.total_rows : ℚ)
  Except.ok
    { score := rpt.quality_score
    , totalRows := rpt.total_rows
    , duplicates := rpt.duplicate_count
    , valueNullPct := vp * 100
    , dateNullPct := dp * 100
    , categoryNullPct := cp * 100
    , outlierPct := op * 100 }

/-- Outcome of the quality tab (app.py lines 251-343): a rendered report,
or the inline banner of the except-branch. -/
inductive Rendered1 where
  | page (v : QualityView)
  | errorBanner (msg : String)
deriving DecidableEq, Repr

/-- The body of the quality-tab try-block (app.py lines 253-341): the
stored-procedure call outcome followed by the rendering. -/
def tab1Body (procResult : Except String QualityReport) :
    Except String QualityView :=
  procResult.bind renderQuality

/-- Embeds the quality-tab handler (app.py lines 251-343): every raised
error is caught and rendered as an inline banner. -/
def tab1Handler (procResult : Except String QualityReport) : Rendered1 :=
  match tab1Body procResult with
  | Except.ok v => Rendered1.page v
  | Except.error e =>
      Rendered1.errorBanner ("Error running quality check: " ++ e)

/-- Round half to even (banker's rounding), the tie-breaking used by
Python's fixed-point string formatting. -/
def roundHalfEven (q : ℚ) : ℤ :=
  if Int.fract q < 1 / 2 then ⌊q⌋
  else if 1 / 2 < Int.fract q then ⌊q⌋ + 1
  else if Even ⌊q⌋ then ⌊q⌋ else ⌊q⌋ + 1

/-- Two-digit decimal rendering of a natural number below 100. -/
def twoDigitStr (r : ℕ) : String :=
  (if r < 10 then "0" else "") ++ toString r

/-- Embeds Python's fixed 2-decimal string formatting of a number
(the f-string at app.py line 434). -/
def fmt2Str (v : ℚ) : String :=
  let c := roundHalfEven (v * 100)
  (if c < 0 then "-" else "")
    ++ toString (c.natAbs / 100) ++ "." ++ twoDigitStr (c.natAbs % 100)

/-- Embeds the forecast table (app.py lines 432-435): dates paired with
the predicted values formatted to 2 decimal places. -/
def forecastTable (r : ForecastOk) : List (String × String) :=
  (r.fcDates.map toString).zip (r.fcValues.map fmt2Str)

/-- Embeds the downloadable CSV (app.py line 439): a header line followed
by one comma-separated line per table row. -/
def forecastCsv (t : List (String × String)) : List String :=
  "Date,Predicted Value" :: t.map (fun p => p.1 ++ "," ++ p.2)

/-- Outcome of the forecast tab (app.py lines 353-448): the inline message
of the status = error branch (line 372), a rendered page, or the banner of
the except-branch (line 448). -/
inductive Rendered2 where
  | statusError (msg : String)
  | page (table : List (String × String)) (csv : List String)
  | errorBanner (msg : String)
deriving DecidableEq, Repr

/-- Embeds the forecast-tab rendering of a parsed result
(app.py lines 371-445). -/
def tab2Render (fr : ForecastResult) : Rendered2 :=
  match fr with
  | ForecastResult.err m => Rendered2.statusError m
  | ForecastResult.ok r =>
      Rendered2.page (forecastTable r) (forecastCsv (forecastTable r))

/-- Embeds the forecast-tab handler (app.py lines 353-448): a raised error
from the stored-procedure call is caught and rendered as a banner. -/
def tab2Handler (procResult : Except String ForecastResult) : Rendered2 :=
  match procResult with
  | Except.ok fr => tab2Render fr
  | Except.error e =>
      Rendered2.errorBanner ("Error generating forecast: " ++ e)

/-- The five scalar statistics of the value column computed by the
AI-insights tab (app.py lines 466-470): record count, mean, max, min and
null count; mean/max/min skip nulls as pandas does. -/
structure ValueStats where
  totalRecords : ℕ
  avgValue : ℚ
  maxValue : ℚ
  minValue : ℚ
  nullCount : ℕ
deriving DecidableEq, Repr

/-- Maximum of a list of rationals (0 for the empty list, a degenerate
stand-in for pandas' NaN). -/
def listMax (l : List ℚ) : ℚ := l.foldr max (l.headD 0)

/-- Minimum of a list of rationals (0 for the empty list). -/
def listMin (l : List ℚ) : ℚ := l.foldr min (l.headD 0)

/-- Embeds app.py lines 466-470: the value column as nullable numbers,
reduced to the five scalar statistics. -/
def fiveStats (col : List (Option ℚ)) : ValueStats :=
  { totalRecords := col.length
  , avgValue := meanQ (col.filterMap id)
  , maxValue := listMax (col.filterMap id)
  , minValue := listMin (col.filterMap id)
  , nullCount := col.countP Option.isNone }

/-- Embeds the prompt template of app.py lines 473-491: fixed text with
the five statistics and the configured value-column name interpolated. -/
def buildPrompt (valueColumn : String) (s : ValueStats) : String :=
  "\nYou are an AI assistant helping program managers in health and education sectors. \nAnalyze the following data summary and provide exactly 3 actionable bullet points for improving program outcomes.\n\nData Summary:\n- Total Records: "
    ++ toString s.totalRecords
    ++ "\n- Metric: " ++ valueColumn
    ++ "\n- Average Value: " ++ fmt2Str s.avgValue
    ++ "\n- Maximum Value: " ++ fmt2Str s.maxValue
    ++ "\n- Minimum Value: " ++ fmt2Str s.minValue
    ++ "\n- Missing Values: " ++ toString s.nullCount
    ++ "\n\nFocus on:\n1. Data quality improvements\n2. Resource allocation recommendations\n3. Trend-based action items\n\nProvide exactly 3 bullet points, each starting with a relevant emoji and action verb.\n"

/-- The prompt the AI-insights tab sends, as a function of the configured
value-column name and the raw value column (app.py lines 466-491). -/
def tab3Prompt (valueColumn : String) (col : List (Option ℚ)) : String :=
  buildPrompt valueColumn (fiveStats col)

/-- The data shown by the AI-insights tab on success (app.py
lines 504-521): the prompt sent, the summarizer's text rendered verbatim,
and the statistics. -/
structure InsightsView where
  promptSent : String
  insightsText : String
  stats : ValueStats
deriving DecidableEq, Repr

/-- Outcome of the AI-insights tab (app.py lines 458-541). -/
inductive Rendered3 where
  | page (v : InsightsView)
  | errorBanner (msg : String)
deriving DecidableEq, Repr

/-- The body of the AI-insights try-block (app.py lines 461-537): fetch the
value column, compute the statistics, build the prompt, call the
summarizer, and display its output text unchanged. -/
def tab3Body (dfResult : Except String (List (Option ℚ)))
    (valueColumn : String) (cortex : String → Except String String) :
    Except String InsightsView := do
  let col ← dfResult
  let s := fiveStats col
  let p := buildPrompt valueColumn s
  let t ← cortex p
  Except.ok { promptSent := p, insightsText := t, stats := s }

/-- Embeds the AI-insights handler (app.py lines 458-541): every raised
error is caught and rendered as an inline banner. -/
def tab3Handler (dfResult : Except String (List (Option ℚ)))
    (valueColumn : String) (cortex : String → Except String String) :
    Rendered3 :=
  match tab3Body dfResult valueColumn cortex with
  | Except.ok v => Rendered3.page v
  | Except.error e =>
      Rendered3.errorBanner ("Error generating AI insights: " ++ e)

/-- A perfectly linear weekly dataset: one row per week, values
10, 20, 30, 40. -/
def linearRows : List Row :=
  [ { value := Cell.num 10, date := Cell.ts 0, category := Cell.null }
  , { value := Cell.num 20, date := Cell.ts 7, category := Cell.null }
  , { value := Cell.num 30, date := Cell.ts 14, category := Cell.null }
  , { value := Cell.num 40, date := Cell.ts 21, category := Cell.null } ]

/-- A dataset with usable rows in weeks 0 and 2 and none in week 1. -/
def gapRows : List Row :=
  [ { value := Cell.num 1, date := Cell.ts 0, category := Cell.null }
  , { value := Cell.num 2, date := Cell.ts 14, category := Cell.null } ]

/-- A dataset with a single usable row. -/
def oneRow : List Row :=
  [ { value := Cell.num 5, date := Cell.ts 0, category := Cell.null } ]

/-- A dataset whose three numeric values are all equal (σ = 0). -/
def constRows : List Row :=
  [ { value := Cell.num 7, date := Cell.ts 0, category := Cell.null }
  , { value := Cell.num 7, date := Cell.ts 1, category := Cell.null }
  , { value := Cell.num 7, date := Cell.ts 2, category := Cell.null } ]

/-- C2: the quality analysis of the empty dataset is the valid all-zero
report with quality_score = 0, but the quality tab is NOT presented
without error: its percentage rendering divides by total_rows = 0
(app.py line 298), the ZeroDivisionError is caught by the handler
(line 342), and an inline error banner replaces the report. -/
theorem C2_empty_dataset_rendering_bug :
    analyze true ([] : List Row)
        = { total_rows := 0, duplicate_count := 0, value_nulls := 0
          , date_nulls := 0, category_nulls := 0, outlier_count := 0
          , outlier_indices := [], quality_score := 0 }
    ∧ analyze false ([] : List Row)
        = { total_rows := 0, duplicate_count := 0, value_nulls := 0
          , date_nulls := 0, category_nulls := 0, outlier_count := 0
          , outlier_indices := [], quality_score := 0 }
    ∧ tab1Handler (Except.ok (analyze true ([] : List Row)))
        = Rendered1.errorBanner "Error running quality check: division by zero" := by
  refine ⟨by with_unfolding_all decide, by with_unfolding_all decide,
    by with_unfolding_all decide⟩

/-- C3: whenever fewer than 2 usable rows or fewer than 2 distinct weekly
aggregation periods remain, the forecast returns status = error with the
insufficient-data message (no exception), and the forecast tab renders
that message inline instead of the metrics/chart/table page. -/
theorem C3_insufficient_data_is_reported (rows : List Row)
    (h : (usableRows rows).length < 2 ∨ (weekList rows).length < 2) :
    forecastEngine rows = ForecastResult.err insufficientMsg
    ∧ tab2Handler (Except.ok (forecastEngine rows))
        = Rendered2.statusError insufficientMsg := by
  have hengine : forecastEngine rows = ForecastResult.err insufficientMsg := by
    unfold forecastEngine
    rcases h with h | h
    · rw [if_pos h]
    · by_cases h2 : (usableRows rows).length < 2
      · rw [if_pos h2]
      · rw [if_neg h2, if_pos h]
  exact ⟨hengine, by rw [hengine]; rfl⟩

/-- Witness for C3 at the single-row dataset. -/
theorem C3_insufficient_data_witness :
    (usableRows oneRow).length < 2
    ∧ (forecastEngine oneRow = ForecastResult.err insufficientMsg
      ∧ tab2Handler (Except.ok (forecastEngine oneRow))
          = Rendered2.statusError insufficientMsg) :=
  ⟨by decide, C3_insufficient_data_is_reported oneRow (Or.inl (by decide))⟩

/-- C5: on the perfectly linear weekly series 10, 20, 30, 40 the forecast
returns r_squared = 1, coefficient = 10, forecast values 50, 60, 70, 80,
and forecast dates each 7 days after the prior one. -/
theorem C5_linear_series_forecast :
    ∃ r, forecastEngine linearRows = ForecastResult.ok r
      ∧ r.histValues = [10, 20, 30, 40]
      ∧ r.r_squared = 1
      ∧ r.coefficient = 10
      ∧ r.fcValues = [50, 60, 70, 80]
      ∧ r.fcDates = [28, 35, 42, 49] :=
  ⟨mkForecastOk linearRows, by with_unfolding_all decide,
    by with_unfolding_all decide, by with_unfolding_all decide,
    by with_unfolding_all decide, by with_unfolding_all decide,
    by with_unfolding_all decide⟩

/-- Rounding to 2 decimals keeps a value of [0, 100] inside [0, 100]. -/
theorem round2_mem_Icc {y : ℚ} (h0 : 0 ≤ y) (h100 : y ≤ 100) :
    0 ≤ round2 y ∧ round2 y ≤ 100 := by
  unfold round2
  have hre : round (y * 100) = ⌊y * 100 + 1 / 2⌋ := round_eq _
  constructor
  · have hlow : (0 : ℤ) ≤ ⌊y * 100 + 1 / 2⌋ := by
      rw [Int.le_floor]
      push_cast
      nlinarith
    rw [hre]
    positivity
  · have hup : ⌊y * 100 + 1 / 2⌋ ≤ 10000 := by
      have h1 : y * 100 + 1 / 2 ≤ 20001 / 2 := by nlinarith
      have h2 := Int.floor_mono h1
      have h3 : (⌊(20001 / 2 : ℚ)⌋ : ℤ) = 10000 := by norm_num
      omega
    rw [hre]
    rw [div_le_iff₀ (by norm_num : (0 : ℚ) < 100)]
    have : ((⌊y * 100 + 1 / 2⌋ : ℤ) : ℚ) ≤ (10000 : ℚ) := by exact_mod_cast hup
    linarith

/-- C1: on every nonempty dataset the quality score equals
max(0, 100 − (value_nulls + date_nulls)/total_rows·100·0.4
− duplicate_count/total_rows·100·0.3 − outlier_count/total_rows·100·0.3)
rounded to 2 decimals; the score always lies in [0, 100], and the analysis
is a deterministic function of its input. -/
theorem C1_quality_score_formula (hasCategory : Bool) (rows : List Row)
    (h : rows ≠ []) :
    (analyze hasCategory rows).quality_score
      = round2 (max 0 (100
          - (((analyze hasCategory rows).value_nulls
                + (analyze hasCategory rows).date_nulls : ℕ) : ℚ)
              / ((analyze hasCategory rows).total_rows : ℚ) * 100 * (0.4 : ℚ)
          - (((analyze hasCategory rows).duplicate_count : ℕ) : ℚ)
              / ((analyze hasCategory rows).total_rows : ℚ) * 100 * (0.3 : ℚ)
          - (((analyze hasCategory rows).outlier_count : ℕ) : ℚ)
              / ((analyze hasCategory rows).total_rows : ℚ) * 100 * (0.3 : ℚ)))
    ∧ 0 ≤ (analyze hasCategory rows).quality_score
    ∧ (analyze hasCategory rows).quality_score ≤ 100
    ∧ (∀ rows₂, rows = rows₂ →
        analyze hasCategory rows = analyze hasCategory rows₂) := by
  have hlen : rows.length ≠ 0 := by
    exact Nat.pos_iff_ne_zero.mp (List.length_pos.mpr h)
  have hscore : (analyze hasCategory rows).quality_score
      = round2 (max 0 (100
          - ((valueNulls rows + dateNulls rows : ℕ) : ℚ)
              / (rows.length : ℚ) * 100 * (4 / 10)
          - ((dupCount hasCategory rows : ℕ) : ℚ)
              / (rows.length : ℚ) * 100 * (3 / 10)
          - ((outlierCount rows : ℕ) : ℚ)
              / (rows.length : ℚ) * 100 * (3 / 10))) := by
    show qualityScore hasCategory rows = _
    unfold qualityScore
    rw [if_neg hlen]
  have harg0 : (0 : ℚ) ≤ max 0 (100
      - ((valueNulls rows + dateNulls rows : ℕ) : ℚ)
          / (rows.length : ℚ) * 100 * (4 / 10)
      - ((dupCount hasCategory rows : ℕ) : ℚ)
          / (rows.length : ℚ) * 100 * (3 / 10)
      - ((outlierCount rows : ℕ) : ℚ)
          / (rows.length : ℚ) * 100 * (3 / 10)) := le_max_left 0 _
  have harg100 : max 0 (100
      - ((valueNulls rows + dateNulls rows : ℕ) : ℚ)
          / (rows.length : ℚ) * 100 * (4 / 10)
      - ((dupCount hasCategory rows : ℕ) : ℚ)
          / (rows.length : ℚ) * 100 * (3 / 10)
      - ((outlierCount rows : ℕ) : ℚ)
          / (rows.length : ℚ) * 100 * (3 / 10)) ≤ 100 := by
    apply max_le (by norm_num)
    have p1 : (0 : ℚ) ≤ ((valueNulls rows + dateNulls rows : ℕ) : ℚ)
        / (rows.length : ℚ) * 100 * (4 / 10) := by positivity
    have p2 : (0 : ℚ) ≤ ((dupCount hasCategory rows : ℕ) : ℚ)
        / (rows.length : ℚ) * 100 * (3 / 10) := by positivity
    have p3 : (0 : ℚ) ≤ ((outlierCount rows : ℕ) : ℚ)
        / (rows.length : ℚ) * 100 * (3 / 10) := by positivity
    linarith
  have hbounds := round2_mem_Icc harg0 harg100
  refine ⟨?_, ?_, ?_, ?_⟩
  · rw [hscore]
    norm_num [analyze]
  · rw [hscore]; exact hbounds.1
  · rw [hscore]; exact hbounds.2
  · intro rows₂ he
    rw [he]

/-- Witness for C1 at the linear four-row dataset. -/
theorem C1_quality_score_witness :
    linearRows ≠ []
    ∧ (analyze true linearRows).quality_score
        = round2 (max 0 (100
            - (((analyze true linearRows).value_nulls
                  + (analyze true linearRows).date_nulls : ℕ) : ℚ)
                / ((analyze true linearRows).total_rows : ℚ) * 100 * (0.4 : ℚ)
            - (((analyze true linearRows).duplicate_count : ℕ) : ℚ)
                / ((analyze true linearRows).total_rows : ℚ) * 100 * (0.3 : ℚ)
            - (((analyze true linearRows).outlier_count : ℕ) : ℚ)
                / ((analyze true linearRows).total_rows : ℚ) * 100 * (0.3 : ℚ)))
    ∧ 0 ≤ (analyze true linearRows).quality_score
    ∧ (analyze true linearRows).quality_score ≤ 100 :=
  have h := C1_quality_score_formula true linearRows (by simp [linearRows])
  ⟨by simp [linearRows], h.1, h.2.1, h.2.2.1⟩

/-- C6: if fewer than 2 numeric value rows exist or the population
variance is 0, the report has outlier_count = 0 and empty outlier_indices;
otherwise a position is in outlier_indices exactly when its row holds a
numeric value whose squared deviation from the mean exceeds (3σ)². -/
theorem C6_outlier_rule (hasCategory : Bool) (rows : List Row) :
    ((numericValues rows).length < 2 ∨ popVar (numericValues rows) = 0 →
      (analyze hasCategory rows).outlier_count = 0
        ∧ (analyze hasCategory rows).outlier_indices = [])
    ∧ (2 ≤ (numericValues rows).length → popVar (numericValues rows) ≠ 0 →
        ∀ i : ℕ, i ∈ (analyze hasCategory rows).outlier_indices ↔
          ∃ r v, rows.get? i = some r ∧ numCell r.value = some v
            ∧ (v - meanQ (numericValues rows)) ^ 2
                > 9 * popVar (numericValues rows)) := by
  constructor
  · intro h
    have he : outlierIndices rows = [] := by
      unfold outlierIndices
      rw [if_pos h]
    constructor
    · show outlierCount rows = 0
      unfold outlierCount
      rw [he]
      rfl
    · show outlierIndices rows = []
      exact he
  · intro h2 hv i
    have hcond : ¬((numericValues rows).length < 2
        ∨ popVar (numericValues rows) = 0) := by
      push_neg
      exact ⟨h2, hv⟩
    have he : (analyze hasCategory rows).outlier_indices
        = (List.range rows.length).filter (fun i => isOutlierAt rows i) := by
      show outlierIndices rows = _
      unfold outlierIndices
      rw [if_neg hcond]
    rw [he, List.mem_filter, List.mem_range]
    unfold isOutlierAt
    cases hr : rows.get? i with
    | none =>
        have hge : rows.length ≤ i := List.get?_eq_none.mp hr
        simp only [hr]
        constructor
        · rintro ⟨hi, -⟩
          omega
        · rintro ⟨r, v, hsome, -⟩
          exact absurd hsome (by simp)
    | some r =>
        have hi : i < rows.length := by
          by_contra hge
          rw [List.get?_eq_none.mpr (not_lt.mp hge)] at hr
          exact absurd hr (by simp)
        cases hval : numCell r.value with
        | none =>
            simp only [hr, hval]
            constructor
            · rintro ⟨-, hfalse⟩
              exact absurd hfalse (by simp)
            · rintro ⟨r', v, hsome, hval', -⟩
              rw [Option.some.injEq] at hsome
              rw [← hsome] at hval'
              rw [hval] at hval'
              exact absurd hval' (by simp)
        | some v =>
            simp only [hr, hval]
            constructor
            · rintro ⟨-, hdec⟩
              exact ⟨r, v, rfl, hval, of_decide_eq_true hdec⟩
            · rintro ⟨r', v', hsome, hval', hgt⟩
              rw [Option.some.injEq] at hsome
              rw [← hsome] at hval'
              rw [hval] at hval'
              rw [Option.some.injEq] at hval'
              refine ⟨hi, decide_eq_true ?_⟩
              rw [hval']
              exact hgt

/-- Witness for C6 at the constant three-row dataset (σ = 0). -/
theorem C6_outlier_rule_witness :
    popVar (numericValues constRows) = 0
    ∧ ((analyze true constRows).outlier_count = 0
      ∧ (analyze true constRows).outlier_indices = []) :=
  ⟨by with_unfolding_all decide,
    (C6_outlier_rule true constRows).1 (Or.inr (by with_unfolding_all decide))⟩

/-- The total sum of squares is nonnegative. -/
theorem tss_nonneg (ys : List ℚ) : 0 ≤ tss ys :=
  Finset.sum_nonneg fun _ _ => sq_nonneg _

/-- The residual sum of squares is nonnegative. -/
theorem rss_nonneg (ys : List ℚ) (b a : ℚ) : 0 ≤ rss ys b a :=
  Finset.sum_nonneg fun _ _ => sq_nonneg _

/-- With at least two x-coordinates, their centered second moment is
positive. -/
theorem sxx_pos {n : ℕ} (h : 2 ≤ n) : 0 < sxx n := by
  have h0 : (0 : ℚ) ≤ sxx n := Finset.sum_nonneg fun _ _ => sq_nonneg _
  rcases h0.lt_or_eq with hlt | heq
  · exact hlt
  · exfalso
    have hsum : (Finset.range n).sum (fun i => ((i : ℚ) - xbar n) ^ 2) = 0 :=
      heq.symm
    have hall :=
      (Finset.sum_eq_zero_iff_of_nonneg (fun i _ => sq_nonneg _)).mp hsum
    have h0' := hall 0 (Finset.mem_range.mpr (by omega))
    have h1' := hall 1 (Finset.mem_range.mpr (by omega))
    rw [sq_eq_zero_iff, sub_eq_zero] at h0' h1'
    push_cast at h0' h1'
    linarith [h0', h1']

/-- Expanding the residual sum of squares of a line through the point of
means: rss = tss − 2·b·sxy + b²·sxx. -/
theorem rss_expand (ys : List ℚ) (b : ℚ) :
    rss ys b (ybar ys - b * xbar ys.length)
      = tss ys - 2 * b * sxy ys + b ^ 2 * sxx ys.length := by
  unfold rss tss sxy sxx
  have hpt : ∀ i ∈ Finset.range ys.length,
      (yAt ys i - (b * (i : ℚ) + (ybar ys - b * xbar ys.length))) ^ 2
        = (yAt ys i - ybar ys) ^ 2
          - 2 * b * (((i : ℚ) - xbar ys.length) * (yAt ys i - ybar ys))
          + b ^ 2 * ((i : ℚ) - xbar ys.length) ^ 2 := by
    intro i _
    ring
  rw [Finset.sum_congr rfl hpt, Finset.sum_add_distrib, Finset.sum_sub_distrib,
    ← Finset.mul_sum, ← Finset.mul_sum]

/-- At the least-squares coefficient the residual sum of squares equals
tss − sxy²/sxx. -/
theorem rss_at_fit (ys : List ℚ) (h : sxx ys.length ≠ 0) :
    rss ys (sxy ys / sxx ys.length)
        (ybar ys - sxy ys / sxx ys.length * xbar ys.length)
      = tss ys - sxy ys ^ 2 / sxx ys.length := by
  rw [rss_expand ys (sxy ys / sxx ys.length)]
  field_simp
  ring

/-- For a series of length at least 2 the fitted r_squared lies in [0, 1]. -/
theorem fitLin_r2_mem (ys : List ℚ) (h : 2 ≤ ys.length) :
    0 ≤ (fitLin ys).1 ∧ (fitLin ys).1 ≤ 1 := by
  unfold fitLin
  by_cases ht : tss ys = 0
  · rw [if_pos ht]
    norm_num
  · rw [if_neg ht]
    have htpos : 0 < tss ys := lt_of_le_of_ne (tss_nonneg ys) (Ne.symm ht)
    have hsxx : (0 : ℚ) < sxx ys.length := sxx_pos h
    have hmin := rss_at_fit ys (ne_of_gt hsxx)
    have hrnn : 0 ≤ rss ys (sxy ys / sxx ys.length)
        (ybar ys - sxy ys / sxx ys.length * xbar ys.length) :=
      rss_nonneg ys _ _
    constructor
    · show (0 : ℚ) ≤ 1 - rss ys (sxy ys / sxx ys.length)
        (ybar ys - sxy ys / sxx ys.length * xbar ys.length) / tss ys
      have hle : rss ys (sxy ys / sxx ys.length)
          (ybar ys - sxy ys / sxx ys.length * xbar ys.length) ≤ tss ys := by
        rw [hmin]
        have hq : 0 ≤ sxy ys ^ 2 / sxx ys.length :=
          div_nonneg (sq_nonneg _) hsxx.le
        linarith
      have hdle : rss ys (sxy ys / sxx ys.length)
          (ybar ys - sxy ys / sxx ys.length * xbar ys.length) / tss ys ≤ 1 :=
        (div_le_one htpos).mpr hle
      linarith
    · show 1 - rss ys (sxy ys / sxx ys.length)
        (ybar ys - sxy ys / sxx ys.length * xbar ys.length) / tss ys ≤ (1 : ℚ)
      have hd0 : 0 ≤ rss ys (sxy ys / sxx ys.length)
          (ybar ys - sxy ys / sxx ys.length * xbar ys.length) / tss ys :=
        div_nonneg hrnn htpos.le
      linarith

/-- Inversion of a successful run of the forecast engine: the payload is
`mkForecastOk` and at least 2 aggregation weeks exist. -/
theorem forecastEngine_ok_inv (rows : List Row) (r : ForecastOk)
    (h : forecastEngine rows = ForecastResult.ok r) :
    r = mkForecastOk rows ∧ 2 ≤ (weekList rows).length := by
  unfold forecastEngine at h
  by_cases h1 : (usableRows rows).length < 2
  · rw [if_pos h1] at h
    exact absurd h (by simp)
  · rw [if_neg h1] at h
    by_cases h2 : (weekList rows).length < 2
    · rw [if_pos h2] at h
      exact absurd h (by simp)
    · rw [if_neg h2] at h
      refine ⟨?_, not_lt.mp h2⟩
      injection h with h'
      exact h'.symm

/-- C7: for every successful forecast, r_squared lies in [0, 1]; when the
total sum of squares of the historical series is 0, r_squared = 0 and
coefficient = 0. -/
theorem C7_r_squared_in_unit_interval (rows : List Row) (r : ForecastOk)
    (h : forecastEngine rows = ForecastResult.ok r) :
    (0 ≤ r.r_squared ∧ r.r_squared ≤ 1)
    ∧ (tss r.histValues = 0 → r.r_squared = 0 ∧ r.coefficient = 0) := by
  obtain ⟨heq, hlen⟩ := forecastEngine_ok_inv rows r h
  subst heq
  have hlen2 : 2 ≤ (histValuesOf rows).length := by
    unfold histValuesOf
    rw [List.length_map]
    exact hlen
  constructor
  · exact fitLin_r2_mem (histValuesOf rows) hlen2
  · intro ht
    have ht' : tss (histValuesOf rows) = 0 := ht
    constructor
    · show (fitLin (histValuesOf rows)).1 = 0
      unfold fitLin
      rw [if_pos ht']
    · show (fitLin (histValuesOf rows)).2.1 = 0
      unfold fitLin
      rw [if_pos ht']

/-- Witness for C7 at the linear four-row dataset. -/
theorem C7_r_squared_witness :
    (0 ≤ (mkForecastOk linearRows).r_squared
      ∧ (mkForecastOk linearRows).r_squared ≤ 1)
    ∧ (tss (mkForecastOk linearRows).histValues = 0 →
        (mkForecastOk linearRows).r_squared = 0
          ∧ (mkForecastOk linearRows).coefficient = 0) :=
  C7_r_squared_in_unit_interval linearRows (mkForecastOk linearRows)
    (by with_unfolding_all decide)

/-- C4 counterexample: on a dataset with usable rows in weeks 0 and 2 and
an empty week between them, the forecast succeeds but the historical dates
are 14 days apart, not 7: the claimed 7-day spacing of historical dates
fails because empty weeks are omitted from the aggregation. -/
theorem C4_seven_day_spacing_counterexample :
    forecastEngine gapRows = ForecastResult.ok (mkForecastOk gapRows)
    ∧ (mkForecastOk gapRows).histDates = [0, 14]
    ∧ ¬ (mkForecastOk gapRows).histDates.Chain' (fun a b => b = a + 7) := by
  refine ⟨by with_unfolding_all decide, by with_unfolding_all decide, ?_⟩
  intro hch
  rw [show (mkForecastOk gapRows).histDates = [0, 14] from
    by with_unfolding_all decide] at hch
  rcases List.chain'_cons.mp hch with ⟨h7, -⟩
  norm_num at h7

/-- C4 amended: every successful forecast has exactly 4 forecast dates and
values, the forecast dates continue at 7-day steps from the last historical
date, and the historical dates are strictly increasing with consecutive
differences that are multiples of 7 (exactly 7 only when no empty week is
omitted). -/
theorem C4_forecast_shape (rows : List Row) (r : ForecastOk)
    (h : forecastEngine rows = ForecastResult.ok r) :
    r.fcDates.length = 4 ∧ r.fcValues.length = 4
    ∧ r.fcDates = [r.histDates.getLastD 0 + 7, r.histDates.getLastD 0 + 14,
        r.histDates.getLastD 0 + 21, r.histDates.getLastD 0 + 28]
    ∧ r.histDates.Chain' (fun a b => a < b ∧ (7 ∣ b - a)) := by
  obtain ⟨heq, hlen⟩ := forecastEngine_ok_inv rows r h
  subst heq
  refine ⟨?_, ?_, ?_, ?_⟩
  · show ((List.range 4).map
        (fun k : ℕ => (histDatesOf rows).getLastD 0 + 7 * ((k : ℤ) + 1))).length
      = 4
    rw [List.length_map, List.length_range]
  · show ((List.range 4).map
        (fun k : ℕ => (fitLin (histValuesOf rows)).2.1
            * (((histValuesOf rows).length : ℚ) + (k : ℚ))
            + (fitLin (histValuesOf rows)).2.2)).length = 4
    rw [List.length_map, List.length_range]
  · show (List.range 4).map
        (fun k : ℕ => (histDatesOf rows).getLastD 0 + 7 * ((k : ℤ) + 1))
      = [(histDatesOf rows).getLastD 0 + 7, (histDatesOf rows).getLastD 0 + 14,
         (histDatesOf rows).getLastD 0 + 21, (histDatesOf rows).getLastD 0 + 28]
    rw [show List.range 4 = [0, 1, 2, 3] from rfl]
    simp only [List.map_cons, List.map_nil, List.cons.injEq, and_true]
    refine ⟨by push_cast; ring, by push_cast; ring, by push_cast; ring,
      by push_cast; ring⟩
  · show (histDatesOf rows).Chain' (fun a b => a < b ∧ (7 ∣ b - a))
    have hsorted : List.Sorted (· ≤ ·) (weekList rows) :=
      List.sorted_insertionSort _ _
    have hnodup : (weekList rows).Nodup :=
      ((List.perm_insertionSort _ _).nodup_iff).mpr (List.nodup_dedup _)
    have hlt : List.Sorted (· < ·) (weekList rows) :=
      hsorted.lt_of_le hnodup
    have hchain : (weekList rows).Chain' (· < ·) := List.Pairwise.chain' hlt
    unfold histDatesOf
    rw [List.chain'_map]
    refine List.Chain'.imp ?_ hchain
    intro a b hab
    exact ⟨by linarith, ⟨b - a, by ring⟩⟩

/-- Witness for the amended C4 at the linear four-row dataset. -/
theorem C4_forecast_shape_witness :
    (mkForecastOk linearRows).fcDates.length = 4
    ∧ (mkForecastOk linearRows).fcValues.length = 4
    ∧ (mkForecastOk linearRows).fcDates
        = [(mkForecastOk linearRows).histDates.getLastD 0 + 7,
           (mkForecastOk linearRows).histDates.getLastD 0 + 14,
           (mkForecastOk linearRows).histDates.getLastD 0 + 21,
           (mkForecastOk linearRows).histDates.getLastD 0 + 28]
    ∧ (mkForecastOk linearRows).histDates.Chain'
        (fun a b => a < b ∧ (7 ∣ b - a)) :=
  C4_forecast_shape linearRows (mkForecastOk linearRows)
    (by with_unfolding_all decide)

/-- The successful payload always carries exactly 4 forecast dates. -/
theorem mkForecastOk_fcDates_length (rows : List Row) :
    (mkForecastOk rows).fcDates.length = 4 := rfl

/-- The successful payload always carries exactly 4 forecast values. -/
theorem mkForecastOk_fcValues_length (rows : List Row) :
    (mkForecastOk rows).fcValues.length = 4 := rfl

/-- The two-digit fractional rendering has length 2 below 100. -/
theorem twoDigitStr_length : ∀ n : ℕ, n < 100 → (twoDigitStr n).length = 2 := by
  decide

/-- Every formatted value has an integer part, a dot and exactly two
fractional digits. -/
theorem fmt2Str_two_decimals (v : ℚ) :
    ∃ intPart frac, fmt2Str v = intPart ++ "." ++ frac ∧ frac.length = 2 := by
  refine ⟨(if roundHalfEven (v * 100) < 0 then "-" else "")
      ++ toString ((roundHalfEven (v * 100)).natAbs / 100),
    twoDigitStr ((roundHalfEven (v * 100)).natAbs % 100), rfl, ?_⟩
  exact twoDigitStr_length _ (Nat.mod_lt _ (by norm_num))

/-- C8: on every successful forecast the rendered page carries the
downloadable table that pairs the i-th forecast date with the i-th
forecast value formatted to exactly 2 decimal places, and the CSV is the
header line followed by exactly those rows. -/
theorem C8_forecast_table_and_csv (rows : List Row) (r : ForecastOk)
    (h : forecastEngine rows = ForecastResult.ok r) :
    tab2Render (ForecastResult.ok r)
      = Rendered2.page (forecastTable r) (forecastCsv (forecastTable r))
    ∧ forecastTable r = (r.fcDates.map toString).zip (r.fcValues.map fmt2Str)
    ∧ (forecastTable r).length = 4
    ∧ (∀ i (hi : i < (forecastTable r).length),
        (forecastTable r).get ⟨i, hi⟩
          = (toString (r.fcDates.getD i 0), fmt2Str (r.fcValues.getD i 0)))
    ∧ forecastCsv (forecastTable r)
        = "Date,Predicted Value"
            :: (forecastTable r).map (fun p => p.1 ++ "," ++ p.2)
    ∧ (∀ v ∈ r.fcValues, ∃ intPart frac,
        fmt2Str v = intPart ++ "." ++ frac ∧ frac.length = 2) := by
  obtain ⟨heq, -⟩ := forecastEngine_ok_inv rows r h
  have hd : r.fcDates.length = 4 := by
    rw [heq]
    exact mkForecastOk_fcDates_length rows
  have hv : r.fcValues.length = 4 := by
    rw [heq]
    exact mkForecastOk_fcValues_length rows
  have hlen : (forecastTable r).length = 4 := by
    unfold forecastTable
    rw [List.length_zip, List.length_map, List.length_map, hd, hv]
    rfl
  refine ⟨rfl, rfl, hlen, ?_, rfl, fun v _ => fmt2Str_two_decimals v⟩
  intro i hi
  have hi4 : i < 4 := hlen ▸ hi
  have hid : i < r.fcDates.length := by omega
  have hiv : i < r.fcValues.length := by omega
  have h1 : i < (r.fcDates.map toString).length := by
    rw [List.length_map]
    exact hid
  have h2 : i < (r.fcValues.map fmt2Str).length := by
    rw [List.length_map]
    exact hiv
  show ((r.fcDates.map toString).zip (r.fcValues.map fmt2Str)).get ⟨i, _⟩ = _
  rw [List.get_eq_getElem, List.getElem_zip]
  rw [List.getElem_map, List.getElem_map]
  rw [List.getD_eq_getElem _ _ hid, List.getD_eq_getElem _ _ hiv]

/-- Witness for C8 at the linear four-row dataset. -/
theorem C8_forecast_table_witness :
    tab2Render (ForecastResult.ok (mkForecastOk linearRows))
      = Rendered2.page (forecastTable (mkForecastOk linearRows))
          (forecastCsv (forecastTable (mkForecastOk linearRows)))
    ∧ forecastTable (mkForecastOk linearRows)
        = ((mkForecastOk linearRows).fcDates.map toString).zip
            ((mkForecastOk linearRows).fcValues.map fmt2Str)
    ∧ (forecastTable (mkForecastOk linearRows)).length = 4
    ∧ (∀ i (hi : i < (forecastTable (mkForecastOk linearRows)).length),
        (forecastTable (mkForecastOk linearRows)).get ⟨i, hi⟩
          = (toString ((mkForecastOk linearRows).fcDates.getD i 0),
              fmt2Str ((mkForecastOk linearRows).fcValues.getD i 0)))
    ∧ forecastCsv (forecastTable (mkForecastOk linearRows))
        = "Date,Predicted Value"
            :: (forecastTable (mkForecastOk linearRows)).map
                (fun p => p.1 ++ "," ++ p.2)
    ∧ (∀ v ∈ (mkForecastOk linearRows).fcValues, ∃ intPart frac,
        fmt2Str v = intPart ++ "." ++ frac ∧ frac.length = 2) :=
  C8_forecast_table_and_csv linearRows (mkForecastOk linearRows)
    (by with_unfolding_all decide)

set_option maxRecDepth 4000 in
/-- C9 counterexample: the prompt is not a function of the five scalar
statistics alone — two configurations with identical statistics but
different value-column names produce different prompts, because the
template interpolates the metric name (app.py line 479). -/
theorem C9_prompt_not_stats_only :
    ¬ ∃ f : ValueStats → String,
        ∀ (valueColumn : String) (col : List (Option ℚ)),
          tab3Prompt valueColumn col = f (fiveStats col) := by
  rintro ⟨f, hf⟩
  have h1 := hf "A" []
  have h2 := hf "AB" []
  have hsame : tab3Prompt "A" [] = tab3Prompt "AB" [] := h1.trans h2.symm
  have hne : tab3Prompt "A" [] ≠ tab3Prompt "AB" [] := by
    with_unfolding_all decide
  exact hne hsame

/-- C9 amended: the prompt is built only from the five scalar statistics
of the value column together with the configured value-column name (it
factors through them), and the summarizer output reaches the page
verbatim, with no parsing by the core. -/
theorem C9_prompt_factors_and_verbatim_output (valueColumn : String)
    (col col₂ : List (Option ℚ)) (h : fiveStats col = fiveStats col₂) :
    tab3Prompt valueColumn col = tab3Prompt valueColumn col₂
    ∧ (∀ (c : List (Option ℚ)) (t : String),
        tab3Body (Except.ok c) valueColumn (fun _ => Except.ok t)
          = Except.ok { promptSent := tab3Prompt valueColumn c
                      , insightsText := t
                      , stats := fiveStats c }) := by
  constructor
  · unfold tab3Prompt
    rw [h]
  · intro c t
    rfl

/-- Witness for the amended C9 at two distinct columns with equal
statistics. -/
theorem C9_prompt_factors_witness :
    fiveStats [some 1, none] = fiveStats [none, some 1]
    ∧ (tab3Prompt "X" [some 1, none] = tab3Prompt "X" [none, some 1]
      ∧ (∀ (c : List (Option ℚ)) (t : String),
          tab3Body (Except.ok c) "X" (fun _ => Except.ok t)
            = Except.ok { promptSent := tab3Prompt "X" c
                        , insightsText := t
                        , stats := fiveStats c })) :=
  ⟨by with_unfolding_all decide,
    C9_prompt_factors_and_verbatim_output "X" [some 1, none] [none, some 1]
      (by with_unfolding_all decide)⟩

/-- C10: in each of the three tab handlers, a body that raises is always
caught and rendered as the inline error banner with the corresponding
message, and a body that succeeds is rendered as the page — no exception
propagates out of any handler. -/
theorem C10_handlers_catch_all :
    (∀ (pr : Except String QualityReport) (e : String),
        tab1Body pr = Except.error e →
          tab1Handler pr
            = Rendered1.errorBanner ("Error running quality check: " ++ e))
    ∧ (∀ (pr : Except String QualityReport) (v : QualityView),
        tab1Body pr = Except.ok v → tab1Handler pr = Rendered1.page v)
    ∧ (∀ e : String,
        tab2Handler (Except.error e)
          = Rendered2.errorBanner ("Error generating forecast: " ++ e))
    ∧ (∀ fr : ForecastResult, tab2Handler (Except.ok fr) = tab2Render fr)
    ∧ (∀ (dfResult : Except String (List (Option ℚ))) (valueColumn : String)
          (cortex : String → Except String String) (e : String),
        tab3Body dfResult valueColumn cortex = Except.error e →
          tab3Handler dfResult valueColumn cortex
            = Rendered3.errorBanner ("Error generating AI insights: " ++ e))
    ∧ (∀ (dfResult : Except String (List (Option ℚ))) (valueColumn : String)
          (cortex : String → Except String String) (v : InsightsView),
        tab3Body dfResult valueColumn cortex = Except.ok v →
          tab3Handler dfResult valueColumn cortex = Rendered3.page v) := by
  refine ⟨?_, ?_, fun e => rfl, fun fr => rfl, ?_, ?_⟩
  · intro pr e h
    unfold tab1Handler
    rw [h]
  · intro pr v h
    unfold tab1Handler
    rw [h]
  · intro dfResult valueColumn cortex e h
    unfold tab3Handler
    rw [h]
  · intro dfResult valueColumn cortex v h
    unfold tab3Handler
    rw [h]

/-- Witness for C10: a failing stored-procedure call in tab 1 and a failing
summarizer call in tab 3 are rendered as inline banners. -/
theorem C10_handlers_witness :
    tab1Handler (Except.error "SQL compilation error")
      = Rendered1.errorBanner
          "Error running quality check: SQL compilation error"
    ∧ tab2Handler (Except.error "SQL compilation error")
      = Rendered2.errorBanner "Error generating forecast: SQL compilation error"
    ∧ tab3Handler (Except.ok []) "X" (fun _ => Except.error "cortex down")
      = Rendered3.errorBanner "Error generating AI insights: cortex down" :=
  ⟨C10_handlers_catch_all.1 (Except.error "SQL compilation error")
      "SQL compilation error" rfl,
    C10_handlers_catch_all.2.2.1 "SQL compilation error",
    C10_handlers_catch_all.2.2.2.2.1 (Except.ok []) "X"
      (fun _ => Except.error "cortex down") "cortex down" rfl⟩
